import Mathlib

/-!
Shallow embedding of `tour-guide-react/backend/main.py` (Scenic-Routing).

The backend is a sequential orchestration of outbound HTTP calls to a mapping
provider: a fastest-route directions call, a set of nearby-search calls, a
place-details call per candidate point, and a scenic directions call.  We model
the provider as an oracle (`Provider`): each outbound call is a field of the
oracle, returning either a transport-level exception (`HttpResult.exn`, covering
network errors, timeouts and JSON failures — everything that raises in Python)
or a transport success (`HttpResult.ok status_code body`, the parsed JSON body).

Floating point coordinates are modelled as rationals; raw durations (seconds)
as integers.  Python `dict.get` chains become `Option` fields.  The
`try/except` blocks of the source become explicit branching on `HttpResult`,
and the endpoint returns `Except HttpError TourResponse`, where the outer
`except Exception` handler of `create_tour` is modelled by `create_tour`
wrapping `create_tour_body` (any Python exception — including the
`HTTPException(400)` the handler itself raised — is converted to a 500 whose
detail is the exception's string form).
-/

namespace ScenicRouting

/-- A latitude/longitude pair ("lat,lng" decimal string in the source). -/
structure Coord where
  lat : ℚ
  lng : ℚ
deriving DecidableEq

/-- One step of a provider directions leg (the fields the backend reads). -/
structure RouteStep where
  html_instructions : String
  distance_text : String
  duration_text : String
deriving DecidableEq

/-- One leg of a provider directions route: `start_location`, `end_location`,
`distance.text`, `duration.text`, `duration.value` (raw seconds) and steps. -/
structure DirectionsLeg where
  start_location : Coord
  end_location : Coord
  distance_text : String
  duration_text : String
  duration_value : ℤ
  steps : List RouteStep
deriving DecidableEq

/-- One provider route: its legs and `overview_polyline.points`. -/
structure DirectionsRoute where
  legs : List DirectionsLeg
  overview_polyline : String
deriving DecidableEq

/-- Parsed JSON body of a directions response: `status` and `routes`. -/
structure DirectionsBody where
  status : String
  routes : List DirectionsRoute
deriving DecidableEq

/-- One nearby-search result (the fields the backend reads): `place_id`,
`name`, `geometry.location`, optional `rating` and `user_ratings_total`, and
the list of `photo_reference` strings of the `photos` array. -/
structure Place where
  place_id : String
  name : String
  location : Coord
  rating : Option ℚ
  user_ratings_total : Option ℕ
  photos : List String
deriving DecidableEq

/-- Parsed JSON body of a nearby-search response: `status` and `results`. -/
structure NearbyBody where
  status : String
  results : List Place
deriving DecidableEq

/-- The `result` object of a place-details response, restricted to the fields
the backend reads; a missing key is `none` (Python `dict.get`). -/
structure PlaceDetails where
  formatted_address : Option String
  editorial_overview : Option String
  website : Option String
  phone : Option String
  opening_hours_weekday_text : Option (List String)
deriving DecidableEq

/-- The empty details dict `{}` returned by `get_place_details` on failure. -/
def emptyDetails : PlaceDetails :=
  ⟨none, none, none, none, none⟩

/-- Parsed JSON body of a place-details response: `status` and `result`. -/
structure DetailsBody where
  status : String
  result : PlaceDetails
deriving DecidableEq

/-- Outcome of one outbound HTTP call: `exn` models any raised Python
exception (network error, timeout, JSON decode or key error); `ok` models a
transport-level response with its HTTP status code and parsed body. -/
inductive HttpResult (α : Type) where
  | exn (msg : String)
  | ok (status_code : ℕ) (body : α)
deriving DecidableEq

/-- The provider oracle: one field per outbound call the backend makes.
`nearby` is keyed by the search center and keyword; `details` by place id;
the two directions calls (fastest, then scenic re-route) are the two
`directions*` fields, in call order. -/
structure Provider where
  nearby : Coord → String → HttpResult NearbyBody
  details : String → HttpResult DetailsBody
  directionsFast : HttpResult DirectionsBody
  directionsScenic : HttpResult DirectionsBody

/-- The request model (`TourRequest` in the source), defaults included. -/
structure TourRequest where
  origin : String
  destination : String
  mode : String := "driving"
  scenic : Bool := false
  eta_tolerance : ℤ := 30
  waypoints : List String := []
deriving DecidableEq

/-- `calculate_distance` of the source: approximate distance in meters
between two points (equirectangular approximation).  Defined over `Float`
exactly as in the source; it is never called by the backend. -/
def calculate_distance (start_lat start_lng end_lat end_lng : Float) : Float :=
  let lat_avg := (start_lat + end_lat) / 2 * 3.141592653589793 / 180
  let dx := (end_lng - start_lng) * Float.cos lat_avg * 111320
  let dy := (end_lat - start_lat) * 111320
  Float.sqrt (dx * dx + dy * dy)

/-- A keyword category: `type`, `keywords`, `weight`. -/
structure Category where
  type : String
  keywords : List String
  weight : ℚ
deriving DecidableEq

/-- The six-category `ATTRACTION_CATEGORIES` table of the source (static
data; the simplified search path never consults it). -/
def ATTRACTION_CATEGORIES : List Category :=
  [ ⟨"water",
     ["lake", "beach", "waterfront", "river view", "marina", "harbor",
      "waterfall", "bay view", "ocean view", "pond", "reservoir",
      "coastal view", "spring", "hot spring", "swimming hole",
      "water feature", "fountain", "lagoon", "cove", "inlet"], 3/2⟩,
    ⟨"landmark",
     ["tourist attraction", "historic site", "landmark", "monument",
      "historic landmark", "historic district", "scenic overlook",
      "observation point", "national monument", "historic park",
      "historic building", "historic house", "historic bridge",
      "historic church", "castle", "lighthouse", "lookout tower",
      "vista point", "scenic spot", "overlook"], 7/5⟩,
    ⟨"nature",
     ["state park", "national park", "scenic viewpoint", "garden",
      "nature preserve", "scenic trail", "nature center",
      "wildlife viewing", "botanical garden", "mountain view",
      "forest preserve", "canyon", "valley", "meadow", "prairie",
      "desert view", "rock formation", "cave", "natural wonder",
      "geological formation"], 13/10⟩,
    ⟨"cultural",
     ["museum", "art gallery", "theater", "historical place",
      "cultural center", "heritage site", "art center",
      "performing arts", "science museum", "children's museum",
      "history museum", "cultural landmark", "archaeological site",
      "historic mansion", "historic mill", "historic fort"], 6/5⟩,
    ⟨"entertainment",
     ["amusement park", "theme park", "water park", "zoo", "aquarium",
      "adventure park", "fun center", "miniature golf", "go karts",
      "observation wheel", "scenic railroad", "tourist railroad",
      "scenic drive", "scenic route", "parkway", "boardwalk"], 11/10⟩,
    ⟨"local",
     ["local attraction", "town square", "main street", "historic downtown",
      "farmers market", "scenic restaurant", "viewpoint cafe",
      "scenic overlook restaurant", "historic inn", "scenic winery",
      "brewery with view", "scenic cafe", "rooftop restaurant",
      "scenic picnic area", "observation deck restaurant"], 1⟩ ]

/-- `get_place_details` of the source: returns the details `result` object
when the call succeeded with HTTP 200 and provider status "OK", and the empty
dict on any other outcome (exception, non-200, non-"OK"). -/
def get_place_details (client : Provider) (place_id : String) : PlaceDetails :=
  match client.details place_id with
  | .exn _ => emptyDetails
  | .ok code body =>
    if code = 200 then
      if body.status = "OK" then body.result else emptyDetails
    else emptyDetails

/-- A scenic point (`point_data` dict built in `find_scenic_points`). -/
structure ScenicPoint where
  location : Coord
  type : String
  name : String
  weight : ℚ
  place_id : String
  rating : Option ℚ
  user_ratings_total : Option ℕ
  photo_reference : Option String
  address : Option String
  description : Option String
  website : Option String
  phone : Option String
  opening_hours : List String
deriving DecidableEq

/-- The two-category `simple_categories` list defined inside
`find_scenic_points`. -/
def simple_categories : List Category :=
  [ ⟨"attraction", ["tourist attraction", "landmark", "point of interest"], 1⟩,
    ⟨"nature", ["park", "lake", "scenic view"], 1⟩ ]

/-- The `point_data` dict built for one accepted nearby-search result:
details enrichment via `get_place_details`, first photo reference if any,
optional detail fields via `dict.get` (absent → `none`; `opening_hours`
defaults to the empty list). -/
def mk_point (client : Provider) (category : Category) (place : Place) :
    ScenicPoint :=
  let details := get_place_details client place.place_id
  ⟨place.location, category.type, place.name, category.weight, place.place_id,
   place.rating, place.user_ratings_total, place.photos.head?,
   details.formatted_address, details.editorial_overview, details.website,
   details.phone, details.opening_hours_weekday_text.getD []⟩

/-- The body of one keyword iteration of `find_scenic_points`: the points
appended for this keyword.  A raised exception (`exn`) is caught and the
keyword skipped; a non-200 or non-"OK" or empty-results response contributes
nothing; otherwise the first 3 results are taken, each enriched. -/
def keyword_points (client : Provider) (mid : Coord) (category : Category)
    (keyword : String) : List ScenicPoint :=
  match client.nearby mid keyword with
  | .exn _ => []
  | .ok code body =>
    if code = 200 ∧ body.status = "OK" ∧ body.results ≠ [] then
      (body.results.take 3).map (mk_point client category)
    else []

/-- The midpoint computed at the top of `find_scenic_points`: the arithmetic
mean of the first (`all_locations[0]`) and last (`all_locations[-1]`)
coordinates; `none` models the `IndexError` on an empty list. -/
def midpointOf (all_locations : List Coord) : Option Coord :=
  match all_locations.head?, all_locations.getLast? with
  | some s, some e => some ⟨(s.lat + e.lat) / 2, (s.lng + e.lng) / 2⟩
  | _, _ => none

/-- `find_scenic_points` of the source: computes the midpoint, then loops
over `simple_categories` and each category's keywords appending
`keyword_points` to `all_points`, and returns `all_points[:5]`.  The `mode`
and `eta_tolerance` parameters are accepted but never used, as in the
source. -/
def find_scenic_points (client : Provider) (all_locations : List Coord)
    (mode : String) (eta_tolerance : ℤ) : Option (List ScenicPoint) :=
  match midpointOf all_locations with
  | none => none
  | some mid =>
    let all_points := simple_categories.foldl (fun acc category =>
      category.keywords.foldl
        (fun acc keyword => acc ++ keyword_points client mid category keyword)
        acc) []
    some (all_points.take 5)

/-- One step of the simplified response shape. -/
structure StepOut where
  instruction : String
  distance : String
  duration : String
deriving DecidableEq

/-- A reshaped route leg of the response: `distance`, `duration`, `steps`,
`polyline`. -/
structure RouteLegOut where
  distance : String
  duration : String
  steps : List StepOut
  polyline : String
deriving DecidableEq

/-- The endpoint's response: `fastest_route` always, `scenic_route` (leg plus
`scenic_points`) only when attached. -/
structure TourResponse where
  fastest_route : RouteLegOut
  scenic_route : Option (RouteLegOut × List ScenicPoint)
deriving DecidableEq

/-- The reshaping of a provider leg into a response leg (the dict built for
`fastest_route` and for `scenic_route`). -/
def legOut (leg : DirectionsLeg) (polyline : String) : RouteLegOut :=
  ⟨leg.distance_text, leg.duration_text,
   leg.steps.map (fun step =>
     ⟨step.html_instructions, step.distance_text, step.duration_text⟩),
   polyline⟩

/-- A Python exception value as far as the endpoint's handler can observe it:
either a `fastapi.HTTPException` (status code and detail) or any other
exception carrying a message. -/
inductive PyError where
  | http (status_code : ℕ) (detail : String)
  | other (msg : String)
deriving DecidableEq

/-- `str(e)` for the exceptions above; for `HTTPException`, starlette's
string form "{status_code}: {detail}". -/
def PyError.str : PyError → String
  | .http code detail => toString code ++ ": " ++ detail
  | .other msg => msg

/-- The message of a Python `IndexError` on list indexing. -/
def indexError : PyError := .other "list index out of range"

/-- The error surface of the HTTP endpoint: status code and `detail`. -/
structure HttpError where
  status_code : ℕ
  detail : String
deriving DecidableEq

/-- The body of the `try:` block of `create_tour`, returning either a raised
exception or the response dict.  Mirrors the source line by line: fastest
directions call (an exception propagates; the status code is never checked),
the 400 `HTTPException` on non-"OK" provider status, `all_locations` from the
legs' start locations plus the last leg's end location, `max_duration =
base_duration * 2`, the `fastest_route` dict, and — when `scenic` was
requested and `find_scenic_points` returned a nonempty list — the scenic
directions call, whose leg is attached only if that call returned HTTP 200
with status "OK" and its duration is within `max_duration`. -/
def create_tour_body (request : TourRequest) (client : Provider) :
    Except PyError TourResponse :=
  match client.directionsFast with
  | .exn msg => .error (.other msg)
  | .ok _ fast_route_data =>
    if fast_route_data.status ≠ "OK" then
      .error (.http 400 ("Could not find route: " ++ fast_route_data.status))
    else
      match fast_route_data.routes with
      | [] => .error indexError
      | route :: _ =>
        match route.legs with
        | [] => .error indexError
        | fast_leg :: rest =>
          let all_locations :=
            (fast_leg :: rest).map (fun leg => leg.start_location) ++
              [(rest.getLastD fast_leg).end_location]
          let base_duration := fast_leg.duration_value
          let max_duration := base_duration * 2
          let fastest := legOut fast_leg route.overview_polyline
          if request.scenic then
            match find_scenic_points client all_locations request.mode
                request.eta_tolerance with
            | none => .error indexError
            | some scenic_points =>
              if scenic_points ≠ [] then
                match client.directionsScenic with
                | .exn msg => .error (.other msg)
                | .ok scode scenic_data =>
                  if scode = 200 then
                    if scenic_data.status = "OK" then
                      match scenic_data.routes with
                      | [] => .error indexError
                      | sroute :: _ =>
                        match sroute.legs with
                        | [] => .error indexError
                        | scenic_leg :: _ =>
                          if scenic_leg.duration_value ≤ max_duration then
                            .ok ⟨fastest,
                              some (legOut scenic_leg sroute.overview_polyline,
                                scenic_points)⟩
                          else .ok ⟨fastest, none⟩
                    else .ok ⟨fastest, none⟩
                  else .ok ⟨fastest, none⟩
              else .ok ⟨fastest, none⟩
          else .ok ⟨fastest, none⟩

/-- The `POST /api/tour` endpoint (`create_tour`): the `try/except` wrapper
converts every exception raised by the body — including the 400
`HTTPException` the body itself raised, since `HTTPException` is an
`Exception` — into `HTTPException(500, str(e))`. -/
def create_tour (request : TourRequest) (client : Provider) :
    Except HttpError TourResponse :=
  match create_tour_body request client with
  | .ok resp => .ok resp
  | .error e => .error ⟨500, e.str⟩

/-- The first route of the fastest directions response, when that call
neither raised nor reported a non-"OK" status. -/
def fastRouteOf (client : Provider) : Option DirectionsRoute :=
  match client.directionsFast with
  | .exn _ => none
  | .ok _ body => if body.status = "OK" then body.routes.head? else none

/-- The fastest leg (`routes[0].legs[0]`) when the fastest call succeeded. -/
def fastLegOf (client : Provider) : Option DirectionsLeg :=
  (fastRouteOf client).bind (fun r => r.legs.head?)

/-- The `all_locations` list `create_tour` builds from the fastest route. -/
def allLocationsOf (client : Provider) : Option (List Coord) :=
  (fastRouteOf client).bind (fun r =>
    match r.legs with
    | [] => none
    | leg :: rest =>
      some ((leg :: rest).map (fun l => l.start_location) ++
        [(rest.getLastD leg).end_location]))

/-- The scenic point list `create_tour` would obtain for a request: the
finder applied to the fastest route's `all_locations`. -/
def foundPointsOf (request : TourRequest) (client : Provider) :
    Option (List ScenicPoint) :=
  (allLocationsOf client).bind (fun locs =>
    find_scenic_points client locs request.mode request.eta_tolerance)

/-- The scenic leg (`routes[0].legs[0]` of the scenic directions response)
when that call returned HTTP 200 with provider status "OK". -/
def scenicLegOf (client : Provider) : Option DirectionsLeg :=
  match client.directionsScenic with
  | .exn _ => none
  | .ok code body =>
    if code = 200 ∧ body.status = "OK" then
      body.routes.head?.bind (fun r => r.legs.head?)
    else none

/-! ### Helper lemmas -/

/-- Folding append of `f` over a list is `flatMap`. -/
theorem foldl_append_flatMap {α β : Type} (f : α → List β) :
    ∀ (l : List α) (init : List β),
      List.foldl (fun acc x => acc ++ f x) init l = init ++ l.flatMap f := by
  intro l
  induction l with
  | nil => intro init; simp
  | cons a t ih => intro init; simp [List.flatMap_cons, ih]

/-- Characterization of the finder: for a list with a midpoint, the result is
the first 5 of the concatenation, over categories and keywords in their fixed
order, of each keyword's contributed points. -/
theorem find_scenic_points_char (client : Provider) (locs : List Coord)
    (mode : String) (tol : ℤ) (mid : Coord) (hm : midpointOf locs = some mid) :
    find_scenic_points client locs mode tol =
      some ((simple_categories.flatMap (fun category =>
        category.keywords.flatMap
          (fun keyword => keyword_points client mid category keyword))).take 5) := by
  have h1 : ∀ (category : Category) (acc : List ScenicPoint),
      category.keywords.foldl
        (fun acc keyword => acc ++ keyword_points client mid category keyword) acc
        = acc ++ category.keywords.flatMap
            (fun keyword => keyword_points client mid category keyword) :=
    fun category acc => foldl_append_flatMap _ _ _
  simp only [find_scenic_points, hm, h1]
  rw [foldl_append_flatMap]
  simp

/-- A nonempty coordinate list has a midpoint. -/
theorem midpointOf_isSome (l : List Coord) (h : l ≠ []) :
    (midpointOf l).isSome = true := by
  unfold midpointOf
  cases hl : l.head? with
  | none => exact absurd (List.head?_eq_none_iff.mp hl) h
  | some s =>
    cases hl2 : l.getLast? with
    | none => exact absurd (List.getLast?_eq_none_iff.mp hl2) h
    | some e => simp

/-- A successful body result pins down the fastest-route data and the
scenic-route gating; master lemma used below. -/
theorem create_tour_body_ok (request : TourRequest) (client : Provider)
    (resp : TourResponse) (hb : create_tour_body request client = .ok resp) :
    (∃ route leg rest, fastRouteOf client = some route ∧
        route.legs = leg :: rest ∧
        resp.fastest_route = legOut leg route.overview_polyline) ∧
    (resp.scenic_route.isSome = true ↔
      (request.scenic = true ∧
       (∃ pts, foundPointsOf request client = some pts ∧ pts ≠ []) ∧
       (∃ sleg fleg, scenicLegOf client = some sleg ∧
          fastLegOf client = some fleg ∧
          sleg.duration_value ≤ fleg.duration_value * 2))) ∧
    (∀ r pts, resp.scenic_route = some (r, pts) →
        foundPointsOf request client = some pts) := by
  unfold create_tour_body at hb
  cases hf : client.directionsFast with
  | exn msg => rw [hf] at hb; simp at hb
  | ok fcode fbody =>
    rw [hf] at hb
    by_cases hst : fbody.status = "OK"
    · simp only [hst, ne_eq, eq_self_iff_true, not_true_eq_false, if_false,
        ite_false] at hb
      cases hroutes : fbody.routes with
      | nil => simp [hroutes] at hb
      | cons route rtail =>
        simp only [hroutes] at hb
        cases hlegs : route.legs with
        | nil => simp [hlegs] at hb
        | cons fast_leg rest =>
          simp only [hlegs] at hb
          have hfr : fastRouteOf client = some route := by
            simp [fastRouteOf, hf, hst, hroutes]
          have hfl : fastLegOf client = some fast_leg := by
            simp [fastLegOf, hfr, hlegs]
          have hfp : foundPointsOf request client =
              find_scenic_points client
                (List.map (fun leg => leg.start_location) (fast_leg :: rest) ++
                  [(rest.getLastD fast_leg).end_location])
                request.mode request.eta_tolerance := by
            simp [foundPointsOf, allLocationsOf, hfr, hlegs]
          by_cases hsc : request.scenic = true
          · simp only [hsc, eq_self_iff_true, if_true, ite_true] at hb
            split at hb
            · simp at hb
            · rename_i pts hfind
              have hfp2 : foundPointsOf request client = some pts :=
                hfp.trans hfind
              by_cases hne : pts = []
              · rw [if_neg (not_not_intro hne)] at hb
                first
                | subst hb
                | (simp only [Except.ok.injEq] at hb; subst hb)
                refine ⟨⟨route, fast_leg, rest, hfr, hlegs, rfl⟩, ?_, ?_⟩
                · simp only [Option.isSome_none, Bool.false_eq_true, false_iff]
                  rintro ⟨-, ⟨pts', hpts', hne'⟩, -⟩
                  rw [hfp2] at hpts'
                  rw [hne] at hpts'
                  cases hpts'
                  exact hne' rfl
                · intro r pts' hcontra; simp at hcontra
              · rw [if_pos hne] at hb
                cases hs : client.directionsScenic with
                | exn msg => rw [hs] at hb; simp at hb
                | ok scode sbody =>
                  simp only [hs] at hb
                  by_cases h200 : scode = 200
                  · rw [if_pos h200] at hb
                    by_cases hsok : sbody.status = "OK"
                    · rw [if_pos hsok] at hb
                      cases hsroutes : sbody.routes with
                      | nil => rw [hsroutes] at hb; simp at hb
                      | cons sroute stail =>
                        simp only [hsroutes] at hb
                        cases hslegs : sroute.legs with
                        | nil => rw [hslegs] at hb; simp at hb
                        | cons scenic_leg srest =>
                          simp only [hslegs] at hb
                          have hsl : scenicLegOf client = some scenic_leg := by
                            simp [scenicLegOf, hs, h200, hsok, hsroutes, hslegs]
                          by_cases hdur :
                              scenic_leg.duration_value ≤ fast_leg.duration_value * 2
                          · rw [if_pos hdur] at hb
                            first
                            | subst hb
                            | (simp only [Except.ok.injEq] at hb; subst hb)
                            refine ⟨⟨route, fast_leg, rest, hfr, hlegs, rfl⟩, ?_, ?_⟩
                            · simp only [Option.isSome_some, true_iff]
                              exact ⟨hsc, ⟨pts, hfp2, hne⟩,
                                ⟨scenic_leg, fast_leg, hsl, hfl, hdur⟩⟩
                            · intro r pts' hsome
                              simp only [Option.some.injEq, Prod.mk.injEq] at hsome
                              rw [hfp2, hsome.2]
                          · rw [if_neg hdur] at hb
                            first
                            | subst hb
                            | (simp only [Except.ok.injEq] at hb; subst hb)
                            refine ⟨⟨route, fast_leg, rest, hfr, hlegs, rfl⟩, ?_, ?_⟩
                            · simp only [Option.isSome_none, Bool.false_eq_true,
                                false_iff]
                              rintro ⟨-, -, ⟨sleg, fleg, hsl', hfl', hle⟩⟩
                              rw [hsl] at hsl'
                              rw [hfl] at hfl'
                              cases hsl'
                              cases hfl'
                              exact hdur hle
                            · intro r pts' hcontra; simp at hcontra
                    · rw [if_neg hsok] at hb
                      first
                      | subst hb
                      | (simp only [Except.ok.injEq] at hb; subst hb)
                      have hsl : scenicLegOf client = none := by
                        simp [scenicLegOf, hs, hsok]
                      refine ⟨⟨route, fast_leg, rest, hfr, hlegs, rfl⟩, ?_, ?_⟩
                      · simp only [Option.isSome_none, Bool.false_eq_true, false_iff]
                        rintro ⟨-, -, ⟨sleg, fleg, hsl', -, -⟩⟩
                        rw [hsl] at hsl'
                        cases hsl'
                      · intro r pts' hcontra; simp at hcontra
                  · rw [if_neg h200] at hb
                    first
                    | subst hb
                    | (simp only [Except.ok.injEq] at hb; subst hb)
                    have hsl : scenicLegOf client = none := by
                      simp [scenicLegOf, hs, h200]
                    refine ⟨⟨route, fast_leg, rest, hfr, hlegs, rfl⟩, ?_, ?_⟩
                    · simp only [Option.isSome_none, Bool.false_eq_true, false_iff]
                      rintro ⟨-, -, ⟨sleg, fleg, hsl', -, -⟩⟩
                      rw [hsl] at hsl'
                      cases hsl'
                    · intro r pts' hcontra; simp at hcontra
          · simp only [hsc, Bool.false_eq_true, if_false, ite_false] at hb
            first
            | subst hb
            | (simp only [Except.ok.injEq] at hb; subst hb)
            refine ⟨⟨route, fast_leg, rest, hfr, hlegs, rfl⟩, ?_, ?_⟩
            · simp only [Option.isSome_none, Bool.false_eq_true, false_iff]
              rintro ⟨hsc', -, -⟩
              exact hsc hsc'
            · intro r pts' hcontra; simp at hcontra
    · simp [hst] at hb

/-- A successful endpoint result comes from a successful body. -/
theorem create_tour_ok_body (request : TourRequest) (client : Provider)
    (resp : TourResponse) (h : create_tour request client = .ok resp) :
    create_tour_body request client = .ok resp := by
  unfold create_tour at h
  cases hcb : create_tour_body request client with
  | ok r =>
    simp only [hcb] at h
    first
    | exact h
    | (rw [h])
    | (simp only [Except.ok.injEq] at h; rw [h])
  | error e => simp [hcb] at h

/-- A body exception becomes a 500 whose detail is the exception's string. -/
theorem create_tour_error (request : TourRequest) (client : Provider)
    (e : PyError) (hb : create_tour_body request client = .error e) :
    create_tour request client = .error ⟨500, e.str⟩ := by
  unfold create_tour
  simp only [hb]

/-- Every endpoint error is a 500 wrapping some body exception. -/
theorem create_tour_error_inv (request : TourRequest) (client : Provider)
    (err : HttpError) (h : create_tour request client = .error err) :
    ∃ e, create_tour_body request client = .error e ∧ err = ⟨500, e.str⟩ := by
  unfold create_tour at h
  cases hcb : create_tour_body request client with
  | ok r => simp [hcb] at h
  | error e =>
    simp only [hcb] at h
    refine ⟨e, rfl, ?_⟩
    first
    | exact h.symm
    | (simp only [Except.error.injEq] at h; exact h.symm)

/-- Any point contributed by one keyword iteration carries that category's
type and weight. -/
theorem keyword_points_mem (client : Provider) (mid : Coord)
    (category : Category) (keyword : String) (pt : ScenicPoint)
    (h : pt ∈ keyword_points client mid category keyword) :
    pt.type = category.type ∧ pt.weight = category.weight := by
  unfold keyword_points at h
  cases hn : client.nearby mid keyword with
  | exn m => simp [hn] at h
  | ok code body =>
    simp only [hn] at h
    split at h
    · rw [List.mem_map] at h
      obtain ⟨place, -, rfl⟩ := h
      exact ⟨rfl, rfl⟩
    · simp at h

/-- Any point the finder returns carries the type and weight of one of the
two `simple_categories`. -/
theorem find_scenic_points_mem (client : Provider) (locs : List Coord)
    (mode : String) (tol : ℤ) (pts : List ScenicPoint) (pt : ScenicPoint)
    (hf : find_scenic_points client locs mode tol = some pts)
    (hpt : pt ∈ pts) :
    ∃ category, category ∈ simple_categories ∧
      pt.type = category.type ∧ pt.weight = category.weight := by
  cases hm : midpointOf locs with
  | none => unfold find_scenic_points at hf; rw [hm] at hf; simp at hf
  | some mid =>
    rw [find_scenic_points_char client locs mode tol mid hm] at hf
    simp only [Option.some.injEq] at hf
    subst hf
    have hpt' := List.mem_of_mem_take hpt
    rw [List.mem_flatMap] at hpt'
    obtain ⟨category, hcat, hpt2⟩ := hpt'
    rw [List.mem_flatMap] at hpt2
    obtain ⟨keyword, -, hpt3⟩ := hpt2
    exact ⟨category, hcat, keyword_points_mem client mid category keyword pt hpt3⟩

/-! ### A concrete request/provider pair used by the witnesses -/

/-- A concrete nearby-search result. -/
def exPlace : Place :=
  ⟨"p1", "Bear Mountain", ⟨41, -73⟩, some 4, some 120, ["photoref1"]⟩

/-- Concrete place details for `exPlace`. -/
def exDetails : PlaceDetails :=
  ⟨some "1 Park Rd", some "A scenic peak", some "bm.example", some "555-0100",
   some ["Mon: 9-5"]⟩

/-- A concrete directions step. -/
def exStep : RouteStep := ⟨"Head north", "1 km", "2 mins"⟩

/-- The fastest leg of the concrete world: 1000 raw seconds. -/
def exFastLeg : DirectionsLeg :=
  ⟨⟨40, -74⟩, ⟨42, -72⟩, "10 km", "17 mins", 1000, [exStep]⟩

/-- The scenic leg of the concrete world: 1900 raw seconds (within the
2000-second budget). -/
def exScenicLeg : DirectionsLeg :=
  ⟨⟨40, -74⟩, ⟨42, -72⟩, "19 km", "32 mins", 1900, [exStep]⟩

/-- A provider where only the "park" keyword returns a result and all four
calls succeed. -/
def exProvider : Provider :=
  ⟨fun _ keyword =>
      if keyword = "park" then .ok 200 ⟨"OK", [exPlace]⟩
      else .ok 200 ⟨"ZERO_RESULTS", []⟩,
   fun _ => .ok 200 ⟨"OK", exDetails⟩,
   .ok 200 ⟨"OK", [⟨[exFastLeg], "polyfast"⟩]⟩,
   .ok 200 ⟨"OK", [⟨[exScenicLeg], "polyscenic"⟩]⟩⟩

/-- A concrete scenic request. -/
def exRequest : TourRequest := ⟨"A", "B", "driving", true, 30, []⟩

/-- The same request with `scenic = false`. -/
def exRequestPlain : TourRequest := ⟨"A", "B", "driving", false, 30, []⟩

/-- The scenic point the finder produces in the concrete world. -/
def exPoint : ScenicPoint :=
  ⟨⟨41, -73⟩, "nature", "Bear Mountain", 1, "p1", some 4, some 120,
   some "photoref1", some "1 Park Rd", some "A scenic peak", some "bm.example",
   some "555-0100", ["Mon: 9-5"]⟩

/-- The endpoint's response in the concrete world for the scenic request. -/
def exResponse : TourResponse :=
  ⟨legOut exFastLeg "polyfast",
   some (legOut exScenicLeg "polyscenic", [exPoint])⟩

/-- The endpoint's response for the non-scenic request. -/
def exResponsePlain : TourResponse := ⟨legOut exFastLeg "polyfast", none⟩

example : create_tour exRequest exProvider = .ok exResponse := rfl

example : create_tour exRequestPlain exProvider = .ok exResponsePlain := rfl

/-! ### Claims -/

/-- C1: for every request whose handling returns a response, the response
contains a `scenic_route` key if and only if all three gates hold: scenic was
requested, at least one scenic point was found, and the scenic leg (obtained
by the scenic directions call) has raw duration at most 2 times the fastest
leg's raw duration. -/
theorem C1_scenic_route_gates (request : TourRequest) (client : Provider)
    (resp : TourResponse) (h : create_tour request client = .ok resp) :
    resp.scenic_route.isSome = true ↔
      (request.scenic = true ∧
       (∃ pts, foundPointsOf request client = some pts ∧ pts ≠ []) ∧
       (∃ sleg fleg, scenicLegOf client = some sleg ∧
          fastLegOf client = some fleg ∧
          sleg.duration_value ≤ fleg.duration_value * 2)) :=
  (create_tour_body_ok request client resp
    (create_tour_ok_body request client resp h)).2.1

/-- Witness for C1: the concrete scenic request against the concrete provider
returns a response, and the iff is discharged there. -/
theorem C1_scenic_route_gates_witness :
    exResponse.scenic_route.isSome = true ↔
      (exRequest.scenic = true ∧
       (∃ pts, foundPointsOf exRequest exProvider = some pts ∧ pts ≠ []) ∧
       (∃ sleg fleg, scenicLegOf exProvider = some sleg ∧
          fastLegOf exProvider = some fleg ∧
          sleg.duration_value ≤ fleg.duration_value * 2)) :=
  C1_scenic_route_gates exRequest exProvider exResponse rfl

/-- C4: for every request with `scenic = false` whose handling returns a
response, the response has no `scenic_route` key — whatever the waypoints —
and its `fastest_route` is the reshaped first leg of the provider's fastest
route. -/
theorem C4_no_scenic_when_not_requested (request : TourRequest)
    (client : Provider) (resp : TourResponse) (hsc : request.scenic = false)
    (h : create_tour request client = .ok resp) :
    resp.scenic_route = none ∧
    ∃ route leg rest, fastRouteOf client = some route ∧
      route.legs = leg :: rest ∧
      resp.fastest_route = legOut leg route.overview_polyline := by
  have hb := create_tour_ok_body request client resp h
  obtain ⟨hfast, hiff, -⟩ := create_tour_body_ok request client resp hb
  refine ⟨?_, hfast⟩
  have hno : ¬resp.scenic_route.isSome = true := by
    rw [hiff]
    rintro ⟨hsc', -, -⟩
    rw [hsc] at hsc'
    cases hsc'
  simpa [Option.not_isSome_iff_eq_none] using hno

/-- Witness for C4: the concrete non-scenic request returns a response with
no scenic route. -/
theorem C4_no_scenic_when_not_requested_witness :
    exResponsePlain.scenic_route = none ∧
    ∃ route leg rest, fastRouteOf exProvider = some route ∧
      route.legs = leg :: rest ∧
      exResponsePlain.fastest_route = legOut leg route.overview_polyline :=
  C4_no_scenic_when_not_requested exRequestPlain exProvider exResponsePlain
    rfl rfl

/-- C10: every point the finder returns has type "attraction" or "nature"
and weight 1, and hence so does every point in a response's scenic point
list (the six-category `ATTRACTION_CATEGORIES` table and
`calculate_distance` are never consulted by the finder or the endpoint). -/
theorem C10_point_type_weight_invariant :
    (∀ (client : Provider) (locs : List Coord) (mode : String) (tol : ℤ)
        (pts : List ScenicPoint) (pt : ScenicPoint),
        find_scenic_points client locs mode tol = some pts → pt ∈ pts →
        (pt.type = "attraction" ∨ pt.type = "nature") ∧ pt.weight = 1) ∧
    (∀ (request : TourRequest) (client : Provider) (resp : TourResponse)
        (r : RouteLegOut) (pts : List ScenicPoint) (pt : ScenicPoint),
        create_tour request client = .ok resp →
        resp.scenic_route = some (r, pts) → pt ∈ pts →
        (pt.type = "attraction" ∨ pt.type = "nature") ∧ pt.weight = 1) := by
  have part1 : ∀ (client : Provider) (locs : List Coord) (mode : String)
      (tol : ℤ) (pts : List ScenicPoint) (pt : ScenicPoint),
      find_scenic_points client locs mode tol = some pts → pt ∈ pts →
      (pt.type = "attraction" ∨ pt.type = "nature") ∧ pt.weight = 1 := by
    intro client locs mode tol pts pt hf hpt
    obtain ⟨category, hcat, htype, hweight⟩ :=
      find_scenic_points_mem client locs mode tol pts pt hf hpt
    simp only [simple_categories, List.mem_cons, List.mem_singleton,
      List.not_mem_nil, or_false] at hcat
    rcases hcat with rfl | rfl
    · exact ⟨Or.inl htype, hweight⟩
    · exact ⟨Or.inr htype, hweight⟩
  refine ⟨part1, ?_⟩
  intro request client resp r pts pt h hsome hpt
  have hb := create_tour_ok_body request client resp h
  obtain ⟨-, -, hfrom⟩ := create_tour_body_ok request client resp hb
  have hfp := hfrom r pts hsome
  unfold foundPointsOf at hfp
  rw [Option.bind_eq_some] at hfp
  obtain ⟨locs, -, hfind⟩ := hfp
  exact part1 client locs request.mode request.eta_tolerance pts pt hfind hpt

/-- Witness for C10: the point found in the concrete world has type
"nature" and weight 1. -/
theorem C10_point_type_weight_invariant_witness :
    (exPoint.type = "attraction" ∨ exPoint.type = "nature") ∧
      exPoint.weight = 1 :=
  C10_point_type_weight_invariant.1 exProvider [⟨40, -74⟩, ⟨42, -72⟩]
    "driving" 30 [exPoint] exPoint rfl (List.mem_singleton.mpr rfl)

/-- One keyword contributes at most 3 points. -/
theorem keyword_points_length_le (client : Provider) (mid : Coord)
    (category : Category) (keyword : String) :
    (keyword_points client mid category keyword).length ≤ 3 := by
  cases hn : client.nearby mid keyword with
  | exn m => simp [keyword_points, hn]
  | ok code body =>
    simp only [keyword_points, hn]
    split
    · simp only [List.length_map, List.length_take]
      omega
    · simp

/-- C6: the search center of the finder is the arithmetic mean of the first
and last coordinates of the endpoint list, whatever lies in between. -/
theorem C6_midpoint_mean (locs : List Coord) (s e : Coord)
    (h1 : locs.head? = some s) (h2 : locs.getLast? = some e) :
    midpointOf locs = some ⟨(s.lat + e.lat) / 2, (s.lng + e.lng) / 2⟩ := by
  unfold midpointOf
  rw [h1, h2]

/-- Witness for C6: first (40, -74) and last (42, -72) give midpoint
(41, -73) even with an unrelated coordinate in between. -/
theorem C6_midpoint_mean_witness :
    midpointOf [⟨40, -74⟩, ⟨39, -80⟩, ⟨42, -72⟩] = some ⟨41, -73⟩ := by
  have h := C6_midpoint_mean [⟨40, -74⟩, ⟨39, -80⟩, ⟨42, -72⟩]
    ⟨40, -74⟩ ⟨42, -72⟩ rfl rfl
  rw [h]
  norm_num [Coord.mk.injEq]

/-- C5: against any fixed provider responses the finder is a function (hence
deterministic), and its value is exactly: the first 3 results per keyword,
iterated in the fixed keyword order ("tourist attraction", "landmark",
"point of interest", "park", "lake", "scenic view"), accumulated across
keywords and truncated to the first 5 points. -/
theorem C5_finder_structure (client : Provider) (locs : List Coord)
    (mode : String) (tol : ℤ) (mid : Coord)
    (hm : midpointOf locs = some mid) :
    find_scenic_points client locs mode tol =
      some ((simple_categories.flatMap (fun category =>
        category.keywords.flatMap (fun keyword =>
          keyword_points client mid category keyword))).take 5) ∧
    simple_categories.flatMap (fun category => category.keywords) =
      ["tourist attraction", "landmark", "point of interest",
       "park", "lake", "scenic view"] ∧
    (∀ category keyword,
      (keyword_points client mid category keyword).length ≤ 3) ∧
    (∀ pts, find_scenic_points client locs mode tol = some pts →
      pts.length ≤ 5) := by
  refine ⟨find_scenic_points_char client locs mode tol mid hm, rfl,
    fun category keyword => keyword_points_length_le client mid category keyword,
    ?_⟩
  intro pts h
  rw [find_scenic_points_char client locs mode tol mid hm] at h
  simp only [Option.some.injEq] at h
  subst h
  simp only [List.length_take]
  omega

/-- Witness for C5 at the concrete world (midpoint left unreduced so the
hypothesis is discharged by `rfl`). -/
theorem C5_finder_structure_witness :
    find_scenic_points exProvider [⟨40, -74⟩, ⟨42, -72⟩] "driving" 30 =
      some ((simple_categories.flatMap (fun category =>
        category.keywords.flatMap (fun keyword =>
          keyword_points exProvider ⟨(40 + 42) / 2, (-74 + -72) / 2⟩
            category keyword))).take 5) ∧
    simple_categories.flatMap (fun category => category.keywords) =
      ["tourist attraction", "landmark", "point of interest",
       "park", "lake", "scenic view"] ∧
    (∀ category keyword,
      (keyword_points exProvider ⟨(40 + 42) / 2, (-74 + -72) / 2⟩
        category keyword).length ≤ 3) ∧
    (∀ pts, find_scenic_points exProvider [⟨40, -74⟩, ⟨42, -72⟩]
        "driving" 30 = some pts → pts.length ≤ 5) :=
  C5_finder_structure exProvider [⟨40, -74⟩, ⟨42, -72⟩] "driving" 30
    ⟨(40 + 42) / 2, (-74 + -72) / 2⟩ rfl

/-- The place-details call for `place_id` failed: it raised, or returned a
non-200 transport status or a non-"OK" provider status. -/
def detailsFailed (client : Provider) (place_id : String) : Prop :=
  match client.details place_id with
  | .exn _ => True
  | .ok code body => ¬(code = 200 ∧ body.status = "OK")

/-- The nearby-search call for `keyword` at `mid` failed: it raised, or
returned a non-200 transport status or a non-"OK" provider status. -/
def nearbyFailed (client : Provider) (mid : Coord) (keyword : String) : Prop :=
  match client.nearby mid keyword with
  | .exn _ => True
  | .ok code body => ¬(code = 200 ∧ body.status = "OK")

/-- C7: when the place-details call for a place fails in any way,
`get_place_details` returns the empty details object, the point built for
that place has all optional detail fields absent (`opening_hours` empty),
and the point still enters the keyword's results — the failure never
escapes the enclosing search. -/
theorem C7_details_failure_graceful (client : Provider) (pid : String)
    (h : detailsFailed client pid) :
    get_place_details client pid = emptyDetails ∧
    ∀ category place, place.place_id = pid →
      (mk_point client category place).address = none ∧
      (mk_point client category place).description = none ∧
      (mk_point client category place).website = none ∧
      (mk_point client category place).phone = none ∧
      (mk_point client category place).opening_hours = [] ∧
      (∀ mid keyword code body,
        client.nearby mid keyword = .ok code body → code = 200 →
        body.status = "OK" → place ∈ body.results.take 3 →
        mk_point client category place ∈
          keyword_points client mid category keyword) := by
  have hd : get_place_details client pid = emptyDetails := by
    unfold detailsFailed at h
    cases hc : client.details pid with
    | exn m => simp [get_place_details, hc]
    | ok code body =>
      simp only [hc] at h
      simp only [get_place_details, hc]
      by_cases h200 : code = 200
      · rw [if_pos h200]
        by_cases hok : body.status = "OK"
        · exact absurd ⟨h200, hok⟩ h
        · rw [if_neg hok]
      · rw [if_neg h200]
  refine ⟨hd, ?_⟩
  intro category place hpid
  subst hpid
  refine ⟨by simp [mk_point, hd, emptyDetails], by simp [mk_point, hd, emptyDetails],
    by simp [mk_point, hd, emptyDetails], by simp [mk_point, hd, emptyDetails],
    by simp [mk_point, hd, emptyDetails], ?_⟩
  intro mid keyword code body hn h200 hok hmem
  have hne : body.results ≠ [] := by
    intro hemp
    rw [hemp] at hmem
    simp at hmem
  simp only [keyword_points, hn]
  rw [if_pos ⟨h200, hok, hne⟩]
  exact List.mem_map_of_mem _ hmem

/-- A provider equal to `exProvider` except that every place-details call
raises. -/
def exProviderNoDetails : Provider :=
  ⟨fun _ keyword =>
      if keyword = "park" then .ok 200 ⟨"OK", [exPlace]⟩
      else .ok 200 ⟨"ZERO_RESULTS", []⟩,
   fun _ => .exn "connection reset",
   .ok 200 ⟨"OK", [⟨[exFastLeg], "polyfast"⟩]⟩,
   .ok 200 ⟨"OK", [⟨[exScenicLeg], "polyscenic"⟩]⟩⟩

/-- The category the concrete point is found under. -/
def exCategory : Category := ⟨"nature", ["park", "lake", "scenic view"], 1⟩

/-- Witness for C7: with the details call raising, the details are empty,
the point's address is absent, and the point still enters the "park"
keyword's results. -/
theorem C7_details_failure_graceful_witness :
    get_place_details exProviderNoDetails "p1" = emptyDetails ∧
    (mk_point exProviderNoDetails exCategory exPlace).address = none ∧
    mk_point exProviderNoDetails exCategory exPlace ∈
      keyword_points exProviderNoDetails ⟨41, -73⟩ exCategory "park" :=
  ⟨(C7_details_failure_graceful exProviderNoDetails "p1" trivial).1,
   ((C7_details_failure_graceful exProviderNoDetails "p1" trivial).2
      exCategory exPlace rfl).1,
   ((C7_details_failure_graceful exProviderNoDetails "p1" trivial).2
      exCategory exPlace rfl).2.2.2.2.2 ⟨41, -73⟩ "park" 200 ⟨"OK", [exPlace]⟩
      rfl rfl rfl (by simp)⟩

/-- `flatMap` respects pointwise equality on the list's members. -/
theorem flatMap_congr_mem {α β : Type} (l : List α) (f g : α → List β)
    (h : ∀ a ∈ l, f a = g a) : l.flatMap f = l.flatMap g := by
  induction l with
  | nil => rfl
  | cons a t ih =>
    simp only [List.flatMap_cons]
    rw [h a (List.mem_cons_self a t), ih (fun b hb => h b (List.mem_cons_of_mem a hb))]

/-- A failed keyword query contributes no points. -/
theorem keyword_points_failed (client : Provider) (mid : Coord)
    (category : Category) (keyword : String)
    (h : nearbyFailed client mid keyword) :
    keyword_points client mid category keyword = [] := by
  unfold nearbyFailed at h
  cases hn : client.nearby mid keyword with
  | exn m => simp [keyword_points, hn]
  | ok code body =>
    simp only [hn] at h
    simp only [keyword_points, hn]
    split
    · rename_i hc
      exact absurd ⟨hc.1, hc.2.1⟩ h
    · rfl

/-- C8: an error on one keyword query only removes that keyword's
contribution: the finder still returns, and its result is the usual first-5
truncation of the accumulation in which the failed keyword contributes the
empty list and every other keyword contributes as usual. -/
theorem C8_keyword_error_skipped (client : Provider) (locs : List Coord)
    (mode : String) (tol : ℤ) (mid : Coord) (keyword : String)
    (pts : List ScenicPoint) (hm : midpointOf locs = some mid)
    (hfail : nearbyFailed client mid keyword)
    (h : find_scenic_points client locs mode tol = some pts) :
    pts = (simple_categories.flatMap (fun category =>
      category.keywords.flatMap (fun kw =>
        if kw = keyword then []
        else keyword_points client mid category kw))).take 5 := by
  rw [find_scenic_points_char client locs mode tol mid hm] at h
  simp only [Option.some.injEq] at h
  subst h
  congr 1
  apply flatMap_congr_mem
  intro category hcat
  apply flatMap_congr_mem
  intro kw hkw
  by_cases hk : kw = keyword
  · rw [if_pos hk, hk]
    exact keyword_points_failed client mid category keyword hfail
  · rw [if_neg hk]

/-- A provider equal to `exProvider` except that the "lake" keyword query
times out. -/
def exProviderLakeDown : Provider :=
  ⟨fun _ keyword =>
      if keyword = "park" then .ok 200 ⟨"OK", [exPlace]⟩
      else if keyword = "lake" then .exn "timeout"
      else .ok 200 ⟨"ZERO_RESULTS", []⟩,
   fun _ => .ok 200 ⟨"OK", exDetails⟩,
   .ok 200 ⟨"OK", [⟨[exFastLeg], "polyfast"⟩]⟩,
   .ok 200 ⟨"OK", [⟨[exScenicLeg], "polyscenic"⟩]⟩⟩

/-- Witness for C8: with "lake" timing out, the finder still returns the
"park" point. -/
theorem C8_keyword_error_skipped_witness :
    [exPoint] = (simple_categories.flatMap (fun category =>
      category.keywords.flatMap (fun kw =>
        if kw = "lake" then []
        else keyword_points exProviderLakeDown
          ⟨(40 + 42) / 2, (-74 + -72) / 2⟩ category kw))).take 5 :=
  C8_keyword_error_skipped exProviderLakeDown [⟨40, -74⟩, ⟨42, -72⟩]
    "driving" 30 ⟨(40 + 42) / 2, (-74 + -72) / 2⟩ "lake" [exPoint]
    rfl trivial rfl

/-- C9: two requests identical except for `eta_tolerance`, against the same
provider responses, produce identical outcomes: the field is accepted but
never consulted (the duration budget uses the hard-coded 2x multiplier). -/
theorem C9_eta_tolerance_unused (request : TourRequest) (client : Provider)
    (tol : ℤ) :
    create_tour ⟨request.origin, request.destination, request.mode,
      request.scenic, tol, request.waypoints⟩ client =
      create_tour request client := by
  cases request
  rfl

/-- A provider whose fastest directions response carries status
"NOT_FOUND". -/
def exProviderNoRoute : Provider :=
  ⟨fun _ _ => .ok 200 ⟨"ZERO_RESULTS", []⟩,
   fun _ => .ok 200 ⟨"OK", exDetails⟩,
   .ok 200 ⟨"NOT_FOUND", []⟩,
   .ok 200 ⟨"OK", []⟩⟩

/-- C2 (code bug): when the fastest directions call reports a non-"OK"
provider status, the handler raises `HTTPException(400, "Could not find
route: <status>")` inside its own `try` block; the blanket
`except Exception` clause catches that very exception and re-raises
`HTTPException(500, str(e))`.  The client therefore receives HTTP 500 — with
the provider status still embedded in the detail — not the 400 the raise
(and the spec) intends. -/
theorem C2_non_ok_status_yields_500 :
    create_tour exRequest exProviderNoRoute =
      .error ⟨500, "400: Could not find route: NOT_FOUND"⟩ := rfl

/-- The fastest directions call either raised, or its parsed body cannot
produce a first leg (non-"OK" status, or no routes, or a first route with no
legs) — the situations in which `create_tour`'s handling of the fastest call
errors. -/
def dirFastBroken (client : Provider) : Prop :=
  match client.directionsFast with
  | .exn _ => True
  | .ok _ body =>
    ¬body.status = "OK" ∨
      (body.routes.head?.bind (fun r => r.legs.head?)) = none

/-- The scenic directions call either raised, or succeeded (HTTP 200,
status "OK") with a body that cannot produce a first leg — the situations in
which `create_tour`'s handling of the scenic call errors. -/
def dirScenicBroken (client : Provider) : Prop :=
  match client.directionsScenic with
  | .exn _ => True
  | .ok code body =>
    code = 200 ∧ body.status = "OK" ∧
      (body.routes.head?.bind (fun r => r.legs.head?)) = none

/-- Inversion of `fastRouteOf`. -/
theorem fastRouteOf_some_inv (client : Provider) (route : DirectionsRoute)
    (h : fastRouteOf client = some route) :
    ∃ fcode fbody rtail, client.directionsFast = .ok fcode fbody ∧
      fbody.status = "OK" ∧ fbody.routes = route :: rtail := by
  unfold fastRouteOf at h
  cases hf : client.directionsFast with
  | exn m => rw [hf] at h; simp at h
  | ok fcode fbody =>
    simp only [hf] at h
    by_cases hst : fbody.status = "OK"
    · rw [if_pos hst] at h
      cases hr : fbody.routes with
      | nil => rw [hr] at h; simp at h
      | cons route' rtail =>
        rw [hr] at h
        simp only [List.head?_cons, Option.some.injEq] at h
        subst h
        exact ⟨fcode, fbody, rtail, rfl, hst, hr⟩
    · rw [if_neg hst] at h
      simp at h

/-- Inversion of `allLocationsOf`. -/
theorem allLocationsOf_some_inv (client : Provider) (locs : List Coord)
    (h : allLocationsOf client = some locs) :
    ∃ route leg rest, fastRouteOf client = some route ∧
      route.legs = leg :: rest ∧
      locs = List.map (fun l => l.start_location) (leg :: rest) ++
        [(rest.getLastD leg).end_location] := by
  unfold allLocationsOf at h
  rw [Option.bind_eq_some] at h
  obtain ⟨route, hr, h2⟩ := h
  cases hl : route.legs with
  | nil => simp [hl] at h2
  | cons leg rest =>
    simp only [hl, Option.some.injEq] at h2
    exact ⟨route, leg, rest, hr, hl, h2.symm⟩

/-- A body success becomes the endpoint's success. -/
theorem create_tour_of_body_ok (request : TourRequest) (client : Provider)
    (resp : TourResponse) (hb : create_tour_body request client = .ok resp) :
    create_tour request client = .ok resp := by
  unfold create_tour
  simp only [hb]

/-- Any body error originates in one of the two directions calls. -/
theorem create_tour_body_error_source (request : TourRequest)
    (client : Provider) (e : PyError)
    (hb : create_tour_body request client = .error e) :
    dirFastBroken client ∨ dirScenicBroken client := by
  unfold create_tour_body at hb
  cases hf : client.directionsFast with
  | exn msg => left; simp [dirFastBroken, hf]
  | ok fcode fbody =>
    rw [hf] at hb
    by_cases hst : fbody.status = "OK"
    · simp only [hst, ne_eq, eq_self_iff_true, not_true_eq_false, if_false,
        ite_false] at hb
      cases hroutes : fbody.routes with
      | nil => left; simp [dirFastBroken, hf, hroutes]
      | cons route rtail =>
        simp only [hroutes] at hb
        cases hlegs : route.legs with
        | nil => left; simp [dirFastBroken, hf, hroutes, hlegs]
        | cons fast_leg rest =>
          simp only [hlegs] at hb
          by_cases hsc : request.scenic = true
          · simp only [hsc, eq_self_iff_true, if_true, ite_true] at hb
            split at hb
            · rename_i hfind
              exfalso
              cases hmp : midpointOf
                  (List.map (fun leg => leg.start_location) (fast_leg :: rest) ++
                    [(rest.getLastD fast_leg).end_location]) with
              | none =>
                have hne := midpointOf_isSome
                  (List.map (fun leg => leg.start_location) (fast_leg :: rest) ++
                    [(rest.getLastD fast_leg).end_location]) (by simp)
                rw [hmp] at hne
                simp at hne
              | some mid =>
                rw [find_scenic_points_char client _ request.mode
                  request.eta_tolerance mid hmp] at hfind
                simp at hfind
            · rename_i pts hfind
              by_cases hne : pts = []
              · rw [if_neg (not_not_intro hne)] at hb
                simp at hb
              · rw [if_pos hne] at hb
                cases hs : client.directionsScenic with
                | exn msg => right; simp [dirScenicBroken, hs]
                | ok scode sbody =>
                  simp only [hs] at hb
                  by_cases h200 : scode = 200
                  · rw [if_pos h200] at hb
                    by_cases hsok : sbody.status = "OK"
                    · rw [if_pos hsok] at hb
                      cases hsroutes : sbody.routes with
                      | nil =>
                        right
                        simp [dirScenicBroken, hs, h200, hsok, hsroutes]
                      | cons sroute stail =>
                        simp only [hsroutes] at hb
                        cases hslegs : sroute.legs with
                        | nil =>
                          right
                          simp [dirScenicBroken, hs, h200, hsok, hsroutes, hslegs]
                        | cons scenic_leg srest =>
                          simp only [hslegs] at hb
                          by_cases hdur : scenic_leg.duration_value ≤
                              fast_leg.duration_value * 2
                          · rw [if_pos hdur] at hb
                            simp at hb
                          · rw [if_neg hdur] at hb
                            simp at hb
                    · rw [if_neg hsok] at hb
                      simp at hb
                  · rw [if_neg h200] at hb
                    simp at hb
          · simp only [hsc, Bool.false_eq_true, if_false, ite_false] at hb
            simp at hb
    · left
      simp only [dirFastBroken, hf]
      exact Or.inl hst

/-- C3 (amended): a transport exception (network error or timeout) on either
directions call propagates to the top level as a 500; a non-200 HTTP status
by itself does not — on the scenic call the scenic route is silently
omitted (the endpoint still returns 200), and on the fastest call the status
code is never inspected; and every endpoint error originates in one of the
two directions calls — nearby-search and place-details failures never
produce one. -/
theorem C3_directions_transport_errors :
    (∀ (request : TourRequest) (client : Provider) (msg : String),
        client.directionsFast = .exn msg →
        create_tour request client = .error ⟨500, msg⟩) ∧
    (∀ (request : TourRequest) (client : Provider) (msg : String)
        (pts : List ScenicPoint),
        request.scenic = true →
        foundPointsOf request client = some pts → pts ≠ [] →
        client.directionsScenic = .exn msg →
        create_tour request client = .error ⟨500, msg⟩) ∧
    (∀ (request : TourRequest) (client : Provider) (code : ℕ)
        (body : DirectionsBody) (pts : List ScenicPoint),
        request.scenic = true →
        foundPointsOf request client = some pts → pts ≠ [] →
        client.directionsScenic = .ok code body → ¬code = 200 →
        ∃ resp, create_tour request client = .ok resp ∧
          resp.scenic_route = none) ∧
    (∀ (request : TourRequest) (client : Provider) (err : HttpError),
        create_tour request client = .error err →
        dirFastBroken client ∨ dirScenicBroken client) := by
  refine ⟨?_, ?_, ?_, ?_⟩
  · intro request client msg hf
    have hb : create_tour_body request client = .error (.other msg) := by
      unfold create_tour_body
      simp [hf]
    exact create_tour_error request client (.other msg) hb
  · intro request client msg pts hsc hfp hne hs
    obtain ⟨locs, hal, hfind⟩ := Option.bind_eq_some.mp hfp
    obtain ⟨route, leg, rest, hfr, hlegs, hlocs⟩ :=
      allLocationsOf_some_inv client locs hal
    obtain ⟨fcode, fbody, rtail, hf, hst, hroutes⟩ :=
      fastRouteOf_some_inv client route hfr
    subst hlocs
    have hb : create_tour_body request client = .error (.other msg) := by
      unfold create_tour_body
      simp only [hf, hst, ne_eq, eq_self_iff_true, not_true_eq_false,
        if_false, ite_false]
      simp only [hroutes, hlegs]
      simp only [hsc, eq_self_iff_true, if_true, ite_true]
      simp only [hfind]
      rw [if_pos hne]
      simp [hs]
    exact create_tour_error request client (.other msg) hb
  · intro request client code body pts hsc hfp hne hs h200
    obtain ⟨locs, hal, hfind⟩ := Option.bind_eq_some.mp hfp
    obtain ⟨route, leg, rest, hfr, hlegs, hlocs⟩ :=
      allLocationsOf_some_inv client locs hal
    obtain ⟨fcode, fbody, rtail, hf, hst, hroutes⟩ :=
      fastRouteOf_some_inv client route hfr
    subst hlocs
    refine ⟨⟨legOut leg route.overview_polyline, none⟩, ?_, rfl⟩
    apply create_tour_of_body_ok
    unfold create_tour_body
    simp only [hf, hst, ne_eq, eq_self_iff_true, not_true_eq_false,
      if_false, ite_false]
    simp only [hroutes, hlegs]
    simp only [hsc, eq_self_iff_true, if_true, ite_true]
    simp only [hfind]
    rw [if_pos hne]
    simp only [hs]
    rw [if_neg h200]
  · intro request client err h
    obtain ⟨e, hb, -⟩ := create_tour_error_inv request client err h
    exact create_tour_body_error_source request client e hb

/-- A provider whose fastest directions call raises (network timeout). -/
def exProviderFastDown : Provider :=
  ⟨fun _ _ => .ok 200 ⟨"ZERO_RESULTS", []⟩,
   fun _ => .ok 200 ⟨"OK", exDetails⟩,
   .exn "connection timeout",
   .exn "connection timeout"⟩

/-- Witness for C3: a raised fastest directions call yields a 500 whose
detail is the exception's message. -/
theorem C3_directions_transport_errors_witness :
    create_tour exRequest exProviderFastDown =
      .error ⟨500, "connection timeout"⟩ :=
  C3_directions_transport_errors.1 exRequest exProviderFastDown
    "connection timeout" rfl

/-- A provider equal to `exProvider` except that the scenic directions call
returns HTTP 404. -/
def exProviderScenic404 : Provider :=
  ⟨fun _ keyword =>
      if keyword = "park" then .ok 200 ⟨"OK", [exPlace]⟩
      else .ok 200 ⟨"ZERO_RESULTS", []⟩,
   fun _ => .ok 200 ⟨"OK", exDetails⟩,
   .ok 200 ⟨"OK", [⟨[exFastLeg], "polyfast"⟩]⟩,
   .ok 404 ⟨"OK", [⟨[exScenicLeg], "polyscenic"⟩]⟩⟩

/-- C3 counterexample: a non-200 transport status on the scenic directions
call does not produce a 500 — scenic was requested, a point was found, the
scenic call returned HTTP 404, and the endpoint still answers 200 with only
the fastest route. -/
theorem C3_counterexample_scenic_404_not_500 :
    exRequest.scenic = true ∧
    exProviderScenic404.directionsScenic =
      .ok 404 ⟨"OK", [⟨[exScenicLeg], "polyscenic"⟩]⟩ ∧
    foundPointsOf exRequest exProviderScenic404 = some [exPoint] ∧
    create_tour exRequest exProviderScenic404 =
      .ok ⟨legOut exFastLeg "polyfast", none⟩ :=
  ⟨rfl, rfl, rfl, rfl⟩

end ScenicRouting
